import Mathlib

/-!
Shallow embedding of `src/Shaders/FlatShader.cpp` (Magnum, 2012): the
capability-adaptive flat-shader program builder.  The constructor is modelled
as a pure function from a build-time API family, a dimensionality variant and
a capability profile to a construction result together with the ordered trace
of calls it makes on its collaborators (resource store, stage compiler,
program object, capability profile).
-/

namespace Magnum

/-- The four GL versions appearing in the two candidate lists of
`FlatShader.cpp` lines 43 and 45. -/
inductive Version where
  | GL320
  | GL210
  | GLES300
  | GLES200
deriving DecidableEq, Repr

/-- The build-time API family: `#ifndef MAGNUM_TARGET_GLES` selects `Desktop`,
`#else` selects `Embedded`. -/
inductive Family where
  | Desktop
  | Embedded
deriving DecidableEq, Repr

/-- The two optional extensions consulted by the desktop branches
(lines 61 and 71). -/
inductive GLExtension where
  | explicit_attrib_location
  | explicit_uniform_location
deriving DecidableEq, Repr

/-- Shader stage kinds (`Shader::Type::Vertex`, `Shader::Type::Fragment`). -/
inductive Stage where
  | Vertex
  | Fragment
deriving DecidableEq, Repr

/-- The dimensionality variant: the template parameter `dimensions`, explicitly
instantiated at 2 and 3 only (lines 79 and 80). -/
inductive Dimensions where
  | two
  | three
deriving DecidableEq, Repr

/-- The capability profile: what `Context::current()` answers.  Pure and
read-only, as in the source, where the constructor only calls const query
members on it.  `uniformLoc` models what `uniformLocation(name)` returns for
the linked program. -/
structure GLContext where
  versionSupported : Version → Bool
  extensionSupported : GLExtension → Bool
  uniformLoc : String → Int
deriving Inhabited

/-- `ShaderName<2>::vertex` / `ShaderName<3>::vertex` (lines 28 to 36). -/
def ShaderName.vertex : Dimensions → String
  | .two => "FlatShader2D.vert"
  | .three => "FlatShader3D.vert"

/-- `ShaderName<2>::fragment` / `ShaderName<3>::fragment` (lines 28 to 36). -/
def ShaderName.fragment : Dimensions → String
  | .two => "FlatShader2D.frag"
  | .three => "FlatShader3D.frag"

/-- One observable call made by the constructor (or a setter) on its
collaborators, in program order. -/
inductive Event where
  | negotiate (candidates : List Version) (result : Version)
  | addSource (stage : Stage) (resource : String)
  | attach (stage : Stage)
  | queryExtension (e : GLExtension) (supported : Bool)
  | queryVersion (v : Version) (supported : Bool)
  | bindAttribute (location : Nat) (name : String)
  | link
  | uniformQuery (name : String) (loc : Int)
  | setUniform (loc : Int)
  | releaseShader (stage : Stage)
deriving DecidableEq, Repr

/-- Construction failure: no candidate version supported. -/
inductive BuildError where
  | UnsupportedCapability
deriving DecidableEq, Repr

/-- The program state a successful construction yields: the two cached uniform
locations, fields named as in `FlatShader.h`. -/
structure FlatShader where
  transformationProjectionMatrixUniform : Int
  colorUniform : Int
deriving DecidableEq, Repr

/-- The two candidate lists, newest first: `{Version::GL320, Version::GL210}`
on desktop (line 43), `{Version::GLES300, Version::GLES200}` on embedded
(line 45). -/
def candidateVersions : Family → List Version
  | .Desktop => [.GL320, .GL210]
  | .Embedded => [.GLES300, .GLES200]

/-- Modelled from the spec: `Context::supportedVersion` is not under `src/`;
spec section 4.1 specifies `negotiateVersion(candidates, newest first)`,
failing with `UnsupportedCapability` when no candidate is supported.  The
first supported candidate of the ordered list wins. -/
def supportedVersion (ctx : GLContext) (candidates : List Version) :
    Option Version :=
  candidates.find? ctx.versionSupported

/-- Modelled from the spec: the fixed "position" attribute slot index
(`Position::Location`, spec section 6: "a fixed attribute binding slot index
shared across all variants").  `FlatShader.h`, which defines the `Position`
attribute type, is not under `src/`; the claims only depend on this being one
fixed constant. -/
def Position.Location : Nat := 0

/-- The modern (first) candidate of each family's list. -/
def modernVersion : Family → Version
  | .Desktop => .GL320
  | .Embedded => .GLES300

/-- The legacy (second) candidate of each family's list. -/
def legacyVersion : Family → Version
  | .Desktop => .GL210
  | .Embedded => .GLES200

/-- The attribute-binding skip condition of lines 60 to 64: on desktop, the
`ARB_explicit_attrib_location` extension is supported; on embedded, version
GLES 3.00 is supported.  The bind happens when this is false. -/
def skipAttributeBind : Family → GLContext → Bool
  | .Desktop, ctx => ctx.extensionSupported .explicit_attrib_location
  | .Embedded, ctx => ctx.versionSupported .GLES300

/-- The capability-profile query the attribute-binding decision performs
(exactly one query on either family). -/
def attributeDecisionQuery : Family → GLContext → Event
  | .Desktop, ctx =>
      .queryExtension .explicit_attrib_location
        (ctx.extensionSupported .explicit_attrib_location)
  | .Embedded, ctx => .queryVersion .GLES300 (ctx.versionSupported .GLES300)

/-- The uniform-query skip condition of lines 69 to 73: on desktop, the
`ARB_explicit_uniform_location` extension is supported; on embedded the block
is unconditional (the `#else` branch opens a plain scope), so the queries are
never skipped. -/
def skipUniformQuery : Family → GLContext → Bool
  | .Desktop, ctx => ctx.extensionSupported .explicit_uniform_location
  | .Embedded, _ => false

/-- The capability-profile queries the uniform-binding decision performs: one
extension query on desktop, none on embedded (no condition is evaluated
there). -/
def uniformDecisionQueries : Family → GLContext → List Event
  | .Desktop, ctx =>
      [.queryExtension .explicit_uniform_location
        (ctx.extensionSupported .explicit_uniform_location)]
  | .Embedded, _ => []

/-- Lines 68 to 77: after linking, either keep the constructor-initialized
locations 0 and 1, or overwrite both fields with by-name
`uniformLocation` query results.  Returns the final field values and the
events of this phase. -/
def resolveUniforms (family : Family) (ctx : GLContext) :
    FlatShader × List Event :=
  if skipUniformQuery family ctx then
    (⟨0, 1⟩, uniformDecisionQueries family ctx)
  else
    (⟨ctx.uniformLoc "transformationProjectionMatrix", ctx.uniformLoc "color"⟩,
      uniformDecisionQueries family ctx ++
        [.uniformQuery "transformationProjectionMatrix"
            (ctx.uniformLoc "transformationProjectionMatrix"),
          .uniformQuery "color" (ctx.uniformLoc "color")])

/-- Lines 48 to 51 and 53 to 56: per stage, add the shared
"compatibility.glsl" resource, then the variant-and-stage resource, then
attach the compiled stage to the program. -/
def stageEvents (stage : Stage) (resource : String) : List Event :=
  [.addSource stage "compatibility.glsl", .addSource stage resource,
    .attach stage]

/-- The attribute-binding phase (lines 59 to 66): always one capability query;
`bindAttributeLocation(Position::Location, "position")` exactly when the skip
condition fails. -/
def attributeEvents (family : Family) (ctx : GLContext) : List Event :=
  attributeDecisionQuery family ctx ::
    (if skipAttributeBind family ctx then []
      else [.bindAttribute Position.Location "position"])

/-- The embedding of `FlatShader<dimensions>::FlatShader()` (lines 39 to 77).
Fields start at 0 and 1 (initializer list, line 39).  Version negotiation
comes first; on failure nothing else runs (empty trace).  Then the vertex
stage is assembled and attached, then the fragment stage, then the attribute
decision, then `link()`, then the uniform decision.  The two local `Shader`
objects are destroyed when the constructor scope exits, in reverse
declaration order: fragment first, then vertex. -/
def flatShaderConstruct (family : Family) (dim : Dimensions)
    (ctx : GLContext) : Except BuildError FlatShader × List Event :=
  match supportedVersion ctx (candidateVersions family) with
  | none => (.error .UnsupportedCapability, [])
  | some v =>
    let resolved := resolveUniforms family ctx
    (.ok resolved.1,
      .negotiate (candidateVersions family) v ::
        (stageEvents .Vertex (ShaderName.vertex dim) ++
          stageEvents .Fragment (ShaderName.fragment dim) ++
          attributeEvents family ctx ++
          [.link] ++ resolved.2 ++
          [.releaseShader .Fragment, .releaseShader .Vertex]))

/-- Modelled from the spec: `setColor` is an inline member of `FlatShader.h`,
which is not under `src/`; spec section 4.5 says it writes to the GPU uniform
at the cached color location and never changes the cached location.  The
payload value never affects control flow and is omitted. -/
def setColor (p : FlatShader) : FlatShader × List Event :=
  (p, [.setUniform p.colorUniform])

/-- Modelled from the spec: `setTransformationProjectionMatrix` is an inline
member of `FlatShader.h`, not under `src/`; spec section 4.5 says it writes to
the GPU uniform at the cached matrix location and never changes it. -/
def setTransformationProjectionMatrix (p : FlatShader) :
    FlatShader × List Event :=
  (p, [.setUniform p.transformationProjectionMatrixUniform])

/-- Modelled from the spec: which GLSL version guarantees in-source explicit
uniform-location qualifiers (the glossary's "explicit-location capability" for
uniforms).  No version in either candidate list guarantees it: the desktop
code gates on the `ARB_explicit_uniform_location` extension even at GL 3.20,
and on the embedded side the feature postdates ES 3.00 (it arrives with
ES 3.10), so ES 3.00 and ES 2.00 do not guarantee it. -/
def versionGuaranteesExplicitUniformLocation : Version → Bool
  | .GL320 => false
  | .GL210 => false
  | .GLES300 => false
  | .GLES200 => false

/-- The embedded attribute-binding rule as the spec words it: skip the manual
bind exactly when the negotiated version is the modern embedded version. -/
def specSkipAttributeBindEmbedded (negotiated : Version) : Bool :=
  negotiated == Version.GLES300

/-! Trace observers. -/

/-- Recognizes an attribute-bind call. -/
def Event.isBind : Event → Bool
  | .bindAttribute _ _ => true
  | _ => false

/-- Recognizes the bind of the fixed "position" slot. -/
def Event.isPositionBind : Event → Bool
  | .bindAttribute l n => l == Position.Location && n == "position"
  | _ => false

/-- Recognizes a by-name uniform-location query. -/
def Event.isUniformQuery : Event → Bool
  | .uniformQuery _ _ => true
  | _ => false

/-- Recognizes a by-name uniform-location query for a given name. -/
def Event.isUniformQueryFor (name : String) : Event → Bool
  | .uniformQuery n _ => n == name
  | _ => false

/-- Recognizes the `link()` call. -/
def Event.isLink : Event → Bool
  | .link => true
  | _ => false

/-- Recognizes a version-negotiation call on the capability profile. -/
def Event.isNegotiate : Event → Bool
  | .negotiate _ _ => true
  | _ => false

/-- Recognizes a source-resolution call. -/
def Event.isAddSource : Event → Bool
  | .addSource _ _ => true
  | _ => false

/-- Recognizes a capability-profile query made for the attribute-binding
decision: the attrib-location extension query (desktop) or a version-support
query (embedded). -/
def Event.isAttribDecisionQuery : Event → Bool
  | .queryExtension .explicit_attrib_location _ => true
  | .queryVersion _ _ => true
  | _ => false

/-- Recognizes a capability-profile query made for the uniform-binding
decision. -/
def Event.isUniformDecisionQuery : Event → Bool
  | .queryExtension .explicit_uniform_location _ => true
  | _ => false

/-- Recognizes the release of a given stage's compiled-stage handle. -/
def Event.isReleaseOf (stage : Stage) : Event → Bool
  | .releaseShader s => s == stage
  | _ => false

/-- Recognizes any compiled-stage handle release. -/
def Event.isRelease : Event → Bool
  | .releaseShader _ => true
  | _ => false

/-- Recognizes the attachment of a given stage. -/
def Event.isAttachOf (stage : Stage) : Event → Bool
  | .attach s => s == stage
  | _ => false

/-- The strict prefix of a trace before the `link()` call. -/
def beforeLink (tr : List Event) : List Event :=
  tr.takeWhile fun e => !e.isLink

/-- The strict suffix of a trace after the `link()` call. -/
def afterLink (tr : List Event) : List Event :=
  (tr.dropWhile fun e => !e.isLink).drop 1

/-- The ordered resource names concatenated into one stage's compilation
unit. -/
def stageSources (stage : Stage) (tr : List Event) : List String :=
  tr.filterMap fun e =>
    match e with
    | .addSource s r => if s == stage then some r else none
    | _ => none

/-! Concrete capability profiles used to exercise the construction. -/

/-- A profile supporting every version and both extensions; every by-name
uniform-location query answers 7. -/
def ctxAllModern : GLContext := ⟨fun _ => true, fun _ => true, fun _ => 7⟩

/-- A legacy-only profile: only GL 2.10 and GLES 2.00 supported, no
extensions. -/
def ctxLegacy : GLContext :=
  ⟨fun v => v == Version.GL210 || v == Version.GLES200, fun _ => false,
    fun _ => 7⟩

/-- A profile supporting nothing at all. -/
def ctxNone : GLContext := ⟨fun _ => false, fun _ => false, fun _ => 7⟩

/-- A desktop profile where only the legacy GL 2.10 version is supported but
the explicit-uniform-location extension is available. -/
def ctxLegacyUniformExt : GLContext :=
  ⟨fun v => v == Version.GL210,
    fun e => e == GLExtension.explicit_uniform_location, fun _ => 7⟩

/-- Claim C1: on the embedded family, after linking, if the negotiated version
guaranteed explicit uniform locations the constructor-baked constants 0 and 1
would be kept with no by-name lookup (vacuously: no embedded candidate version
guarantees the capability); otherwise both locations are queried by name from
the linked program, strictly after linking, and the results are cached in the
two uniform fields. -/
theorem C1_embedded_uniform_binding (dim : Dimensions) (ctx : GLContext)
    (p : FlatShader) (tr : List Event) (v : Version)
    (hv : supportedVersion ctx (candidateVersions .Embedded) = some v)
    (hok : flatShaderConstruct .Embedded dim ctx = (.ok p, tr)) :
    (versionGuaranteesExplicitUniformLocation v = true →
      tr.countP Event.isUniformQuery = 0 ∧
      p.transformationProjectionMatrixUniform = 0 ∧ p.colorUniform = 1) ∧
    (versionGuaranteesExplicitUniformLocation v = false →
      (beforeLink tr).countP Event.isUniformQuery = 0 ∧
      (afterLink tr).countP
        (Event.isUniformQueryFor "transformationProjectionMatrix") = 1 ∧
      (afterLink tr).countP (Event.isUniformQueryFor "color") = 1 ∧
      p.transformationProjectionMatrixUniform =
        ctx.uniformLoc "transformationProjectionMatrix" ∧
      p.colorUniform = ctx.uniformLoc "color") := by
  cases h1 : ctx.versionSupported Version.GLES300 <;>
    cases h2 : ctx.versionSupported Version.GLES200 <;>
    simp [supportedVersion, candidateVersions, List.find?, h1, h2] at hv
  all_goals subst hv
  all_goals
    simp [flatShaderConstruct, supportedVersion, candidateVersions, List.find?,
      h1, h2, resolveUniforms, skipUniformQuery, uniformDecisionQueries,
      stageEvents, attributeEvents, attributeDecisionQuery,
      skipAttributeBind] at hok
  all_goals
    obtain ⟨rfl, rfl⟩ := hok
    simp [versionGuaranteesExplicitUniformLocation, beforeLink, afterLink,
      Event.isUniformQuery, Event.isUniformQueryFor, Event.isLink,
      List.takeWhile_cons, List.dropWhile_cons,
      List.countP_cons, List.countP_append, List.countP_nil]

/-- Claim C1 witness: a concrete embedded construction at full version
support, negotiating GLES 3.00 and still querying both uniform locations by
name after linking. -/
theorem C1_embedded_uniform_binding_witness :
    (versionGuaranteesExplicitUniformLocation .GLES300 = true →
      ((flatShaderConstruct .Embedded .two ctxAllModern).2.countP
        Event.isUniformQuery = 0) ∧
      (⟨7, 7⟩ : FlatShader).transformationProjectionMatrixUniform = 0 ∧
      (⟨7, 7⟩ : FlatShader).colorUniform = 1) ∧
    (versionGuaranteesExplicitUniformLocation .GLES300 = false →
      ((beforeLink (flatShaderConstruct .Embedded .two ctxAllModern).2).countP
        Event.isUniformQuery = 0) ∧
      ((afterLink (flatShaderConstruct .Embedded .two ctxAllModern).2).countP
        (Event.isUniformQueryFor "transformationProjectionMatrix") = 1) ∧
      ((afterLink (flatShaderConstruct .Embedded .two ctxAllModern).2).countP
        (Event.isUniformQueryFor "color") = 1) ∧
      (⟨7, 7⟩ : FlatShader).transformationProjectionMatrixUniform =
        ctxAllModern.uniformLoc "transformationProjectionMatrix" ∧
      (⟨7, 7⟩ : FlatShader).colorUniform = ctxAllModern.uniformLoc "color") :=
  C1_embedded_uniform_binding .two ctxAllModern ⟨7, 7⟩
    ((flatShaderConstruct .Embedded .two ctxAllModern).2) .GLES300 rfl rfl

/-- Claim C2: at full modern desktop support (modern version plus both
explicit-location extensions), construction succeeds with zero attribute-bind
calls and zero by-name uniform-location queries, and the cached locations are
exactly 0 and 1. -/
theorem C2_full_modern_support (dim : Dimensions) (ctx : GLContext)
    (hv : ctx.versionSupported .GL320 = true)
    (ha : ctx.extensionSupported .explicit_attrib_location = true)
    (hu : ctx.extensionSupported .explicit_uniform_location = true) :
    (flatShaderConstruct .Desktop dim ctx).1.map
      FlatShader.transformationProjectionMatrixUniform = .ok 0 ∧
    (flatShaderConstruct .Desktop dim ctx).1.map
      FlatShader.colorUniform = .ok 1 ∧
    (flatShaderConstruct .Desktop dim ctx).2.countP Event.isBind = 0 ∧
    (flatShaderConstruct .Desktop dim ctx).2.countP Event.isUniformQuery = 0 := by
  simp [flatShaderConstruct, supportedVersion, candidateVersions, List.find?,
    hv, ha, hu, resolveUniforms, skipUniformQuery, uniformDecisionQueries,
    stageEvents, attributeEvents, attributeDecisionQuery, skipAttributeBind,
    List.countP_cons, List.countP_nil, List.countP_append,
    Event.isBind, Event.isUniformQuery, Except.map]

/-- Claim C2 witness: both variants at the all-supporting profile. -/
theorem C2_full_modern_support_witness :
    ((flatShaderConstruct .Desktop .two ctxAllModern).1.map
        FlatShader.transformationProjectionMatrixUniform = .ok 0 ∧
      (flatShaderConstruct .Desktop .two ctxAllModern).1.map
        FlatShader.colorUniform = .ok 1 ∧
      (flatShaderConstruct .Desktop .two ctxAllModern).2.countP
        Event.isBind = 0 ∧
      (flatShaderConstruct .Desktop .two ctxAllModern).2.countP
        Event.isUniformQuery = 0) ∧
    ((flatShaderConstruct .Desktop .three ctxAllModern).1.map
        FlatShader.transformationProjectionMatrixUniform = .ok 0 ∧
      (flatShaderConstruct .Desktop .three ctxAllModern).1.map
        FlatShader.colorUniform = .ok 1 ∧
      (flatShaderConstruct .Desktop .three ctxAllModern).2.countP
        Event.isBind = 0 ∧
      (flatShaderConstruct .Desktop .three ctxAllModern).2.countP
        Event.isUniformQuery = 0) :=
  ⟨C2_full_modern_support .two ctxAllModern rfl rfl rfl,
    C2_full_modern_support .three ctxAllModern rfl rfl rfl⟩

/-- Claim C3: at legacy support (the attribute-skip and uniform-skip
conditions both false, on either family), a successful construction performs
exactly one attribute bind, of the fixed "position" slot, strictly before
linking, and exactly one by-name query each for
"transformationProjectionMatrix" and "color", strictly after linking, caching
the results in the two uniform fields. -/
theorem C3_legacy_support (family : Family) (dim : Dimensions)
    (ctx : GLContext) (p : FlatShader) (tr : List Event)
    (hok : flatShaderConstruct family dim ctx = (.ok p, tr))
    (ha : skipAttributeBind family ctx = false)
    (hu : skipUniformQuery family ctx = false) :
    (beforeLink tr).countP Event.isPositionBind = 1 ∧
    tr.countP Event.isBind = 1 ∧
    (beforeLink tr).countP Event.isUniformQuery = 0 ∧
    (afterLink tr).countP
      (Event.isUniformQueryFor "transformationProjectionMatrix") = 1 ∧
    (afterLink tr).countP (Event.isUniformQueryFor "color") = 1 ∧
    (afterLink tr).countP Event.isUniformQuery = 2 ∧
    p.transformationProjectionMatrixUniform =
      ctx.uniformLoc "transformationProjectionMatrix" ∧
    p.colorUniform = ctx.uniformLoc "color" ∧
    (setColor p).1 = p ∧
    (setColor p).2.countP Event.isUniformQuery = 0 ∧
    (setTransformationProjectionMatrix p).2.countP Event.isUniformQuery = 0 := by
  cases family
  case Desktop =>
    simp only [skipAttributeBind] at ha
    simp only [skipUniformQuery] at hu
    cases h1 : ctx.versionSupported Version.GL320 <;>
      cases h2 : ctx.versionSupported Version.GL210 <;>
      simp [flatShaderConstruct, supportedVersion, candidateVersions,
        List.find?, h1, h2, ha, hu, resolveUniforms, skipUniformQuery,
        uniformDecisionQueries, stageEvents, attributeEvents,
        attributeDecisionQuery, skipAttributeBind] at hok
    all_goals
      obtain ⟨rfl, rfl⟩ := hok
      simp [beforeLink, afterLink, setColor, setTransformationProjectionMatrix,
        Event.isPositionBind, Event.isBind, Event.isUniformQuery,
        Event.isUniformQueryFor, Event.isLink, Position.Location,
        List.takeWhile_cons, List.dropWhile_cons,
        List.countP_cons, List.countP_append, List.countP_nil]
  case Embedded =>
    simp only [skipAttributeBind] at ha
    cases h2 : ctx.versionSupported Version.GLES200 <;>
      simp [flatShaderConstruct, supportedVersion, candidateVersions,
        List.find?, ha, h2, resolveUniforms, skipUniformQuery,
        uniformDecisionQueries, stageEvents, attributeEvents,
        attributeDecisionQuery, skipAttributeBind] at hok
    all_goals
      obtain ⟨rfl, rfl⟩ := hok
      simp [beforeLink, afterLink, setColor, setTransformationProjectionMatrix,
        Event.isPositionBind, Event.isBind, Event.isUniformQuery,
        Event.isUniformQueryFor, Event.isLink, Position.Location,
        List.takeWhile_cons, List.dropWhile_cons,
        List.countP_cons, List.countP_append, List.countP_nil]

/-- Claim C3 witness: the legacy-only profile on the desktop family. -/
theorem C3_legacy_support_witness :
    ((beforeLink (flatShaderConstruct .Desktop .two ctxLegacy).2).countP
      Event.isPositionBind = 1) ∧
    ((flatShaderConstruct .Desktop .two ctxLegacy).2.countP Event.isBind = 1) ∧
    ((beforeLink (flatShaderConstruct .Desktop .two ctxLegacy).2).countP
      Event.isUniformQuery = 0) ∧
    ((afterLink (flatShaderConstruct .Desktop .two ctxLegacy).2).countP
      (Event.isUniformQueryFor "transformationProjectionMatrix") = 1) ∧
    ((afterLink (flatShaderConstruct .Desktop .two ctxLegacy).2).countP
      (Event.isUniformQueryFor "color") = 1) ∧
    ((afterLink (flatShaderConstruct .Desktop .two ctxLegacy).2).countP
      Event.isUniformQuery = 2) ∧
    (⟨7, 7⟩ : FlatShader).transformationProjectionMatrixUniform =
      ctxLegacy.uniformLoc "transformationProjectionMatrix" ∧
    (⟨7, 7⟩ : FlatShader).colorUniform = ctxLegacy.uniformLoc "color" ∧
    (setColor ⟨7, 7⟩).1 = (⟨7, 7⟩ : FlatShader) ∧
    (setColor ⟨7, 7⟩).2.countP Event.isUniformQuery = 0 ∧
    (setTransformationProjectionMatrix ⟨7, 7⟩).2.countP
      Event.isUniformQuery = 0 :=
  C3_legacy_support .Desktop .two ctxLegacy ⟨7, 7⟩
    ((flatShaderConstruct .Desktop .two ctxLegacy).2) rfl rfl rfl

/-- Claim C4: with the two-element candidate list ordered newest first, if
only the legacy candidate is supported the negotiated version is the legacy
candidate; if neither is supported, construction fails with
UnsupportedCapability and its trace contains no source resolution, no stage
attachment and no link. -/
theorem C4_version_negotiation (family : Family) (dim : Dimensions)
    (ctx : GLContext) :
    (ctx.versionSupported (modernVersion family) = false →
      ctx.versionSupported (legacyVersion family) = true →
      supportedVersion ctx (candidateVersions family) =
        some (legacyVersion family)) ∧
    (ctx.versionSupported (modernVersion family) = false →
      ctx.versionSupported (legacyVersion family) = false →
      flatShaderConstruct family dim ctx =
        (.error .UnsupportedCapability, []) ∧
      (flatShaderConstruct family dim ctx).2.countP Event.isAddSource = 0 ∧
      (flatShaderConstruct family dim ctx).2.countP
        (Event.isAttachOf .Vertex) = 0 ∧
      (flatShaderConstruct family dim ctx).2.countP
        (Event.isAttachOf .Fragment) = 0 ∧
      (flatShaderConstruct family dim ctx).2.countP Event.isLink = 0) := by
  cases family <;>
    refine ⟨fun hm hl => ?_, fun hm hl => ?_⟩ <;>
    simp [supportedVersion, candidateVersions, List.find?, modernVersion,
      legacyVersion, hm, hl, flatShaderConstruct, Event.isAddSource,
      Event.isAttachOf, Event.isLink] at *

/-- Claim C4 witness: the legacy-only profile negotiates GL 2.10 on desktop,
and the nothing-supported profile fails with UnsupportedCapability. -/
theorem C4_version_negotiation_witness :
    supportedVersion ctxLegacy (candidateVersions .Desktop) =
      some (legacyVersion .Desktop) ∧
    flatShaderConstruct .Desktop .two ctxNone =
      (.error .UnsupportedCapability, []) :=
  ⟨(C4_version_negotiation .Desktop .two ctxLegacy).1 rfl rfl,
    ((C4_version_negotiation .Desktop .two ctxNone).2 rfl rfl).1⟩

/-- Claim C5: in every successful construction, each stage's compilation unit
is exactly the shared compatibility prelude followed by the single
variant-and-stage-specific resource, in that order. -/
theorem C5_source_order (family : Family) (dim : Dimensions)
    (ctx : GLContext) (p : FlatShader) (tr : List Event)
    (hok : flatShaderConstruct family dim ctx = (.ok p, tr)) :
    stageSources .Vertex tr = ["compatibility.glsl", ShaderName.vertex dim] ∧
    stageSources .Fragment tr =
      ["compatibility.glsl", ShaderName.fragment dim] := by
  cases family
  case Desktop =>
    cases h1 : ctx.versionSupported Version.GL320 <;>
      cases h2 : ctx.versionSupported Version.GL210 <;>
      cases h3 : ctx.extensionSupported GLExtension.explicit_attrib_location <;>
      cases h4 : ctx.extensionSupported GLExtension.explicit_uniform_location <;>
      simp [flatShaderConstruct, supportedVersion, candidateVersions,
        List.find?, h1, h2, h3, h4, resolveUniforms, skipUniformQuery,
        uniformDecisionQueries, stageEvents, attributeEvents,
        attributeDecisionQuery, skipAttributeBind] at hok
    all_goals
      obtain ⟨rfl, rfl⟩ := hok
      simp [stageSources, List.filterMap_cons]
  case Embedded =>
    cases h1 : ctx.versionSupported Version.GLES300 <;>
      cases h2 : ctx.versionSupported Version.GLES200 <;>
      simp [flatShaderConstruct, supportedVersion, candidateVersions,
        List.find?, h1, h2, resolveUniforms, skipUniformQuery,
        uniformDecisionQueries, stageEvents, attributeEvents,
        attributeDecisionQuery, skipAttributeBind] at hok
    all_goals
      obtain ⟨rfl, rfl⟩ := hok
      simp [stageSources, List.filterMap_cons]

/-- Claim C5 witness: the legacy-only profile on the embedded family, 3D
variant. -/
theorem C5_source_order_witness :
    stageSources .Vertex (flatShaderConstruct .Embedded .three ctxLegacy).2 =
      ["compatibility.glsl", ShaderName.vertex .three] ∧
    stageSources .Fragment (flatShaderConstruct .Embedded .three ctxLegacy).2 =
      ["compatibility.glsl", ShaderName.fragment .three] :=
  C5_source_order .Embedded .three ctxLegacy ⟨7, 7⟩
    ((flatShaderConstruct .Embedded .three ctxLegacy).2) rfl

/-- Claim C6 counterexample: in a concrete successful desktop construction,
both stages are attached before linking, yet no compiled-stage handle is
released before the link, so the vertex stage's handle is not released before
the fragment stage is compiled nor before linking (releases only happen at
constructor scope exit). -/
theorem C6_release_counterexample :
    ((beforeLink (flatShaderConstruct .Desktop .two ctxAllModern).2).countP
      (Event.isAttachOf .Vertex) = 1) ∧
    ((beforeLink (flatShaderConstruct .Desktop .two ctxAllModern).2).countP
      (Event.isAttachOf .Fragment) = 1) ∧
    ((beforeLink (flatShaderConstruct .Desktop .two ctxAllModern).2).countP
      Event.isRelease = 0) ∧
    ((flatShaderConstruct .Desktop .two ctxAllModern).2.countP
      (Event.isReleaseOf .Vertex) = 1) := by decide

/-- Claim C6 as amended: each compiled-stage handle is released exactly once,
by scoped destruction at constructor scope exit — after linking and after
uniform resolution, the fragment stage's handle first and the vertex stage's
handle last — rather than immediately after its attachment. -/
theorem C6_scoped_release (family : Family) (dim : Dimensions)
    (ctx : GLContext) (p : FlatShader) (tr : List Event)
    (hok : flatShaderConstruct family dim ctx = (.ok p, tr)) :
    tr.countP (Event.isReleaseOf .Vertex) = 1 ∧
    tr.countP (Event.isReleaseOf .Fragment) = 1 ∧
    (beforeLink tr).countP Event.isRelease = 0 ∧
    tr.reverse.take 2 =
      [Event.releaseShader .Vertex, Event.releaseShader .Fragment] := by
  cases family
  case Desktop =>
    cases h1 : ctx.versionSupported Version.GL320 <;>
      cases h2 : ctx.versionSupported Version.GL210 <;>
      cases h3 : ctx.extensionSupported GLExtension.explicit_attrib_location <;>
      cases h4 : ctx.extensionSupported GLExtension.explicit_uniform_location <;>
      simp [flatShaderConstruct, supportedVersion, candidateVersions,
        List.find?, h1, h2, h3, h4, resolveUniforms, skipUniformQuery,
        uniformDecisionQueries, stageEvents, attributeEvents,
        attributeDecisionQuery, skipAttributeBind] at hok
    all_goals
      obtain ⟨rfl, rfl⟩ := hok
      simp [beforeLink, Event.isReleaseOf, Event.isRelease, Event.isLink,
        List.takeWhile_cons, List.countP_cons, List.countP_nil]
  case Embedded =>
    cases h1 : ctx.versionSupported Version.GLES300 <;>
      cases h2 : ctx.versionSupported Version.GLES200 <;>
      simp [flatShaderConstruct, supportedVersion, candidateVersions,
        List.find?, h1, h2, resolveUniforms, skipUniformQuery,
        uniformDecisionQueries, stageEvents, attributeEvents,
        attributeDecisionQuery, skipAttributeBind] at hok
    all_goals
      obtain ⟨rfl, rfl⟩ := hok
      simp [beforeLink, Event.isReleaseOf, Event.isRelease, Event.isLink,
        List.takeWhile_cons, List.countP_cons, List.countP_nil]

/-- Claim C6 amended-claim witness: the all-supporting desktop profile. -/
theorem C6_scoped_release_witness :
    ((flatShaderConstruct .Desktop .two ctxAllModern).2.countP
      (Event.isReleaseOf .Vertex) = 1) ∧
    ((flatShaderConstruct .Desktop .two ctxAllModern).2.countP
      (Event.isReleaseOf .Fragment) = 1) ∧
    ((beforeLink (flatShaderConstruct .Desktop .two ctxAllModern).2).countP
      Event.isRelease = 0) ∧
    (flatShaderConstruct .Desktop .two ctxAllModern).2.reverse.take 2 =
      [Event.releaseShader .Vertex, Event.releaseShader .Fragment] :=
  C6_scoped_release .Desktop .two ctxAllModern ⟨0, 1⟩
    ((flatShaderConstruct .Desktop .two ctxAllModern).2) rfl

/-- Claim C7: on a successfully constructed program, the setters leave the two
cached uniform locations unchanged; two consecutive setColor calls emit writes
to the same cached location and perform no by-name location query. -/
theorem C7_setter_locations_stable (family : Family) (dim : Dimensions)
    (ctx : GLContext) (p : FlatShader) (tr : List Event)
    (_hok : flatShaderConstruct family dim ctx = (.ok p, tr)) :
    (setColor p).1 = p ∧
    (setColor (setColor p).1).1 = p ∧
    (setColor p).2 = [Event.setUniform p.colorUniform] ∧
    (setColor (setColor p).1).2 = [Event.setUniform p.colorUniform] ∧
    ((setColor p).2 ++ (setColor (setColor p).1).2).countP
      Event.isUniformQuery = 0 ∧
    (setTransformationProjectionMatrix p).1 = p ∧
    (setTransformationProjectionMatrix p).2 =
      [Event.setUniform p.transformationProjectionMatrixUniform] := by
  simp [setColor, setTransformationProjectionMatrix, Event.isUniformQuery]

/-- Claim C7 witness: the legacy-only desktop construction. -/
theorem C7_setter_locations_stable_witness :
    (setColor ⟨7, 7⟩).1 = (⟨7, 7⟩ : FlatShader) ∧
    (setColor (setColor ⟨7, 7⟩).1).1 = (⟨7, 7⟩ : FlatShader) ∧
    (setColor ⟨7, 7⟩).2 =
      [Event.setUniform (⟨7, 7⟩ : FlatShader).colorUniform] ∧
    (setColor (setColor ⟨7, 7⟩).1).2 =
      [Event.setUniform (⟨7, 7⟩ : FlatShader).colorUniform] ∧
    ((setColor ⟨7, 7⟩).2 ++ (setColor (setColor ⟨7, 7⟩).1).2).countP
      Event.isUniformQuery = 0 ∧
    (setTransformationProjectionMatrix ⟨7, 7⟩).1 = (⟨7, 7⟩ : FlatShader) ∧
    (setTransformationProjectionMatrix ⟨7, 7⟩).2 =
      [Event.setUniform
        (⟨7, 7⟩ : FlatShader).transformationProjectionMatrixUniform] :=
  C7_setter_locations_stable .Desktop .two ctxLegacy ⟨7, 7⟩
    ((flatShaderConstruct .Desktop .two ctxLegacy).2) rfl

/-- Claim C8: in any construction, on either family, the capability profile
is consulted at most once per decision point: at most one version
negotiation, at most one attribute-decision query and at most one
uniform-decision query appear in the trace.  The profile is a read-only value
in this embedding, so the core cannot mutate it. -/
theorem C8_profile_query_discipline (family : Family) (dim : Dimensions)
    (ctx : GLContext) :
    (flatShaderConstruct family dim ctx).2.countP Event.isNegotiate ≤ 1 ∧
    (flatShaderConstruct family dim ctx).2.countP
      Event.isAttribDecisionQuery ≤ 1 ∧
    (flatShaderConstruct family dim ctx).2.countP
      Event.isUniformDecisionQuery ≤ 1 := by
  cases family
  case Desktop =>
    cases h1 : ctx.versionSupported Version.GL320 <;>
      cases h2 : ctx.versionSupported Version.GL210 <;>
      cases h3 : ctx.extensionSupported GLExtension.explicit_attrib_location <;>
      cases h4 : ctx.extensionSupported GLExtension.explicit_uniform_location <;>
      simp [flatShaderConstruct, supportedVersion, candidateVersions,
        List.find?, h1, h2, h3, h4, resolveUniforms, skipUniformQuery,
        uniformDecisionQueries, stageEvents, attributeEvents,
        attributeDecisionQuery, skipAttributeBind, Event.isNegotiate,
        Event.isAttribDecisionQuery, Event.isUniformDecisionQuery,
        List.countP_cons, List.countP_nil, List.countP_append]
  case Embedded =>
    cases h1 : ctx.versionSupported Version.GLES300 <;>
      cases h2 : ctx.versionSupported Version.GLES200 <;>
      simp [flatShaderConstruct, supportedVersion, candidateVersions,
        List.find?, h1, h2, resolveUniforms, skipUniformQuery,
        uniformDecisionQueries, stageEvents, attributeEvents,
        attributeDecisionQuery, skipAttributeBind, Event.isNegotiate,
        Event.isAttribDecisionQuery, Event.isUniformDecisionQuery,
        List.countP_cons, List.countP_nil, List.countP_append]

/-- Claim C9: on the desktop family, the uniform-binding decision depends only
on the explicit-uniform-location extension, whatever version was negotiated:
a successful construction performs zero by-name queries exactly when the
extension is supported, in which case the cached locations are the baked-in
0 and 1. -/
theorem C9_desktop_uniform_decision (dim : Dimensions) (ctx : GLContext)
    (p : FlatShader) (tr : List Event)
    (hok : flatShaderConstruct .Desktop dim ctx = (.ok p, tr)) :
    tr.countP Event.isUniformQuery =
      (if ctx.extensionSupported GLExtension.explicit_uniform_location
        then 0 else 2) ∧
    (ctx.extensionSupported GLExtension.explicit_uniform_location = true →
      p.transformationProjectionMatrixUniform = 0 ∧ p.colorUniform = 1) := by
  cases h1 : ctx.versionSupported Version.GL320 <;>
    cases h2 : ctx.versionSupported Version.GL210 <;>
    cases h3 : ctx.extensionSupported GLExtension.explicit_attrib_location <;>
    cases h4 : ctx.extensionSupported GLExtension.explicit_uniform_location <;>
    simp [flatShaderConstruct, supportedVersion, candidateVersions,
      List.find?, h1, h2, h3, h4, resolveUniforms, skipUniformQuery,
      uniformDecisionQueries, stageEvents, attributeEvents,
      attributeDecisionQuery, skipAttributeBind] at hok
  all_goals
    obtain ⟨rfl, rfl⟩ := hok
    simp [h4, Event.isUniformQuery,
      List.countP_cons, List.countP_nil, List.countP_append]

/-- Claim C9 witness: a desktop profile where only legacy GL 2.10 is
supported yet the explicit-uniform-location extension is available: GL 2.10
is negotiated, no query is made, the locations stay 0 and 1. -/
theorem C9_desktop_uniform_decision_witness :
    supportedVersion ctxLegacyUniformExt (candidateVersions .Desktop) =
      some Version.GL210 ∧
    ((flatShaderConstruct .Desktop .two ctxLegacyUniformExt).2.countP
        Event.isUniformQuery =
      (if ctxLegacyUniformExt.extensionSupported
          GLExtension.explicit_uniform_location then 0 else 2)) ∧
    (ctxLegacyUniformExt.extensionSupported
        GLExtension.explicit_uniform_location = true →
      (⟨0, 1⟩ : FlatShader).transformationProjectionMatrixUniform = 0 ∧
      (⟨0, 1⟩ : FlatShader).colorUniform = 1) :=
  ⟨rfl,
    C9_desktop_uniform_decision .two ctxLegacyUniformExt ⟨0, 1⟩
      ((flatShaderConstruct .Desktop .two ctxLegacyUniformExt).2) rfl⟩

/-- Claim C10: on the embedded family, the attribute-binding condition the
code tests (GLES 3.00 is supported) coincides, for the candidate list
[GLES 3.00, GLES 2.00], with the spec's rule (the negotiated version is the
modern embedded version), and the bind of "position" occurs in exactly the
runs where the spec's rule says it does. -/
theorem C10_embedded_attrib_refinement (dim : Dimensions) (ctx : GLContext)
    (v : Version)
    (hv : supportedVersion ctx (candidateVersions .Embedded) = some v) :
    skipAttributeBind .Embedded ctx = specSkipAttributeBindEmbedded v ∧
    (flatShaderConstruct .Embedded dim ctx).2.countP Event.isBind =
      (if specSkipAttributeBindEmbedded v then 0 else 1) := by
  cases h1 : ctx.versionSupported Version.GLES300 <;>
    cases h2 : ctx.versionSupported Version.GLES200 <;>
    simp [supportedVersion, candidateVersions, List.find?, h1, h2] at hv
  all_goals subst hv
  all_goals
    simp [skipAttributeBind, specSkipAttributeBindEmbedded, h1, h2,
      flatShaderConstruct, supportedVersion, candidateVersions, List.find?,
      resolveUniforms, skipUniformQuery, uniformDecisionQueries, stageEvents,
      attributeEvents, attributeDecisionQuery, Event.isBind,
      List.countP_cons, List.countP_nil, List.countP_append]

/-- Claim C10 witness: the legacy-only profile on the embedded family
negotiates GLES 2.00 and both decision rules call for the bind. -/
theorem C10_embedded_attrib_refinement_witness :
    supportedVersion ctxLegacy (candidateVersions .Embedded) =
      some Version.GLES200 ∧
    (skipAttributeBind .Embedded ctxLegacy =
      specSkipAttributeBindEmbedded .GLES200 ∧
    (flatShaderConstruct .Embedded .two ctxLegacy).2.countP Event.isBind =
      (if specSkipAttributeBindEmbedded .GLES200 then 0 else 1)) :=
  ⟨rfl, C10_embedded_attrib_refinement .two ctxLegacy .GLES200 rfl⟩

end Magnum
